import Mathlib

/-!
Verification of the Audico enhanced backend core against its specification.

Each JavaScript function under scrutiny is shallowly embedded as an
executable Lean definition:

* `PriceEngine` models `src/processors/price-extraction-engine.js`
  (price candidates, `selectBestPrice`, the price-pattern scanner,
  `analyzePricesInLine`, `isPositionAlreadyMatched`);
* `PriceAgent` models the price agent module of the repository
  (`extractFromDenonMarantzPDF`, `calculateConfidenceScore`);
* `LayoutDetector` models `src/processors/layout-detector.js`
  (`getFileType`, `enhanceWithAI`, `analyzeLayout`);
* `TemplateManager` models `src/processors/template-manager.js`
  (`createAdaptiveTemplate`, `mergeConfigurations`,
  `calculateTemplateScore` and its sub-scores, `updateAverage`,
  `updatePerformanceMetrics`).

JavaScript numbers are embedded as rationals (`ℚ`), strings as `String`
(treated as lists of characters), objects as structures with `Option`
fields where the JS field may be `undefined`, and thrown exceptions as
`Except String`.
-/

namespace PriceEngine

/-- A price candidate object as pushed by `analyzePricesInLine` /
`extractPricesFromExcelRow`: fields `value`, `type`, `priority`,
`confidence`, `position`, `rawMatch`, `currency`. -/
structure PriceInfo where
  value : ℚ
  type : String
  priority : ℚ
  confidence : ℚ
  position : Nat
  rawMatch : String
  currency : String
deriving DecidableEq, Repr

/-- The sort comparator of `selectBestPrice` says candidate `a` comes
strictly before candidate `b` (higher priority first, then higher
confidence). -/
def priceGt (a b : PriceInfo) : Bool :=
  if a.priority ≠ b.priority then decide (b.priority < a.priority)
  else decide (b.confidence < a.confidence)

/-- The head of the stable sort performed in `selectBestPrice`: the first
candidate of the list that no later candidate strictly beats. -/
def selectTop : List PriceInfo → Option PriceInfo
  | [] => none
  | p :: rest => some (rest.foldl (fun best q => if priceGt q best then q else best) p)

/-- The confidence boost applied by `selectBestPrice` when the winning
candidate has type `'New RRP'`:
`bestPrice.confidence = Math.min(1.0, bestPrice.confidence + 0.1)`. -/
def boostNewRRP (p : PriceInfo) : PriceInfo :=
  if p.type = "New RRP" then { p with confidence := min 1 (p.confidence + 1/10) } else p

/-- `selectBestPrice(prices)`: `null` on an empty list, the sole element
on a singleton (returned before the boost code is reached), otherwise the
head of the stable `(priority desc, confidence desc)` sort, with the
New-RRP confidence boost applied. -/
def selectBestPrice : List PriceInfo → Option PriceInfo
  | [] => none
  | [p] => some p
  | p :: q :: rest => (selectTop (p :: q :: rest)).map boostNewRRP

end PriceEngine

namespace TemplateManager

/-- `||`-style defaulting on a possibly-`undefined` JS number: `o || d`
is `d` when `o` is absent **or zero** (zero is falsy in JS). -/
def jsOrQ (o : Option ℚ) (d : ℚ) : ℚ :=
  match o with
  | none => d
  | some v => if v = 0 then d else v

/-- The `pricePatterns` bag stored in a layout's characteristics and in a
template's learned layout patterns. -/
structure PricePatternsInfo where
  primaryFormat : String
  hasNewRRP : Bool
  hasOldRRP : Bool
  totalPriceReferences : ℚ
deriving DecidableEq, Repr

/-- `sheet.hasHeaders` sub-object (`{detected: …}`). -/
structure HeaderDetection where
  detected : Bool
deriving DecidableEq, Repr

/-- `sheet.dataStructure` sub-object (`{dataQuality: …}`). -/
structure DataStructureInfo where
  dataQuality : ℚ
deriving DecidableEq, Repr

/-- A per-sheet entry of `characteristics.sheets`. -/
structure SheetInfo where
  columnCount : Option ℚ
  hasHeaders : Option HeaderDetection
  dataStructure : Option DataStructureInfo
deriving DecidableEq, Repr

/-- A layout descriptor's `characteristics` bag (the fields read by the
template scoring code). -/
structure Characteristics where
  pricePatterns : Option PricePatternsInfo
  sheets : Option (List SheetInfo)
  sheetCount : Option ℚ
deriving DecidableEq, Repr

/-- `layoutInfo.metadata` (the scoring code only reads `fileSize`). -/
structure LayoutMetadata where
  fileSize : Option ℚ
deriving DecidableEq, Repr

/-- The layout descriptor consumed by the template manager. -/
structure LayoutInfo where
  type : String
  subtype : String
  confidence : ℚ
  characteristics : Option Characteristics
  metadata : Option LayoutMetadata
  processingHints : Option (List (String × String))
deriving DecidableEq, Repr

/-- Truthiness of `layoutInfo.metadata?.fileSize` (absent or `0` is
falsy). -/
def LayoutInfo.fileSizeTruthy (li : LayoutInfo) : Bool :=
  match li.metadata with
  | none => false
  | some m =>
    match m.fileSize with
    | none => false
    | some v => decide (v ≠ 0)

/-- `config.validationConfig`. -/
structure ValidationConfig where
  confidenceThreshold : ℚ
deriving DecidableEq, Repr

/-- `config.primarySheetConfig`. -/
structure PrimarySheetConfig where
  expectedColumns : Option ℚ
  hasHeaders : Option Bool
  expectedDataQuality : Option ℚ
deriving DecidableEq, Repr

/-- A template's `config` object (the fields the code under scrutiny
reads or writes). -/
structure TemplateConfig where
  processingHints : Option (List (String × String))
  validationConfig : ValidationConfig
  columnMappings : Option (List (String × List Nat))
  expectedSheetCount : Option ℚ
  primarySheetConfig : Option PrimarySheetConfig
deriving DecidableEq, Repr

/-- `template.metadata`. -/
structure TemplateMetadata where
  fileFormat : String
deriving DecidableEq, Repr

/-- `template.performance`. `lastUsed` is the epoch-millisecond value of
the stored date, `none` when never used. -/
structure Performance where
  usageCount : Nat
  successCount : Nat
  averageScore : ℚ
  averageProcessingTime : ℚ
  averageProductCount : ℚ
  lastUsed : Option ℚ
  confidenceHistory : List ℚ
deriving DecidableEq, Repr

/-- One entry of `learningData.adaptationHistory`. -/
structure AdaptationEntry where
  timestamp : String
  baseTemplate : String
  reason : String
  adaptations : List String
deriving DecidableEq, Repr

/-- `template.learningData`.  `layoutPatterns` entries may be
`undefined` in JS (an absent `characteristics` is pushed as-is), hence
`Option`. -/
structure LearningData where
  layoutPatterns : List (Option Characteristics)
  successfulExtractions : List String
  failedExtractions : List String
  adaptationHistory : List AdaptationEntry
deriving DecidableEq, Repr

/-- A persisted extraction template. -/
structure Template where
  id : String
  name : String
  version : String
  created : Option String
  updated : Option String
  baseTemplate : Option String
  layoutType : String
  subtype : String
  config : TemplateConfig
  performance : Performance
  learningData : LearningData
  metadata : TemplateMetadata
deriving DecidableEq, Repr

/-- `supplierProfile.learningPreferences`. -/
structure LearningPreferences where
  confidenceThreshold : ℚ
deriving DecidableEq, Repr

/-- A supplier profile (the fields the scoring/merging code reads). -/
structure SupplierProfile where
  templateSuccessRates : List (String × ℚ)
  learningPreferences : Option LearningPreferences
deriving DecidableEq, Repr

/-- JS object spread `{...base, ...override}`: base keys first (values
overridden where present), then new override keys in order. -/
def jsMergeObj (base ov : List (String × String)) : List (String × String) :=
  base.map (fun kv => (kv.1, ((ov.find? (fun o => o.1 == kv.1)).map Prod.snd).getD kv.2)) ++
    ov.filter (fun o => ¬ base.any (fun kv => kv.1 == o.1))

/-- `mergeConfigurations(baseConfig, layoutInfo, supplierProfile)`: deep
copy of the base config, processing hints merged in when the layout
carries any, confidence threshold overridden from the supplier's learning
preferences when present. -/
def mergeConfigurations (baseConfig : TemplateConfig) (layoutInfo : LayoutInfo)
    (supplierProfile : Option SupplierProfile) : TemplateConfig :=
  let merged := baseConfig
  let merged :=
    match layoutInfo.processingHints with
    | some hints => { merged with processingHints := some (jsMergeObj (merged.processingHints.getD []) hints) }
    | none => merged
  match supplierProfile with
  | some p =>
    match p.learningPreferences with
    | some lp =>
      { merged with validationConfig := { merged.validationConfig with confidenceThreshold := lp.confidenceThreshold } }
    | none => merged
  | none => merged

/-- `identifyAdaptations(baseTemplate, layoutInfo)`. -/
def identifyAdaptations (baseTemplate : Template) (layoutInfo : LayoutInfo) : List String :=
  (if baseTemplate.layoutType ≠ layoutInfo.type then
    ["Layout type changed from " ++ baseTemplate.layoutType ++ " to " ++ layoutInfo.type]
  else []) ++
  (if (1/5 : ℚ) < |baseTemplate.config.validationConfig.confidenceThreshold - layoutInfo.confidence| then
    ["Confidence threshold adjusted for layout confidence: " ++ toString layoutInfo.confidence]
  else [])

/-- `createAdaptiveTemplate`: builds the adaptive clone.  The fresh
`uuidv4()` and the two date reads are passed in as `templateId`,
`nowISO` and `nowMsStr`.  `JSON.parse(JSON.stringify(baseTemplate))` is a
structural deep copy, which on values is the identity; every field the
code overrides is overridden here. -/
def createAdaptiveTemplate (supplier : String) (layoutInfo : LayoutInfo)
    (baseTemplate : Template) (supplierProfile : Option SupplierProfile)
    (templateId nowISO nowMsStr : String) : Template :=
  { id := templateId
    name := supplier ++ "_adaptive_" ++ nowMsStr
    version := "1.0.0-adaptive"
    created := some nowISO
    updated := some nowISO
    baseTemplate := some baseTemplate.id
    layoutType := baseTemplate.layoutType
    subtype := baseTemplate.subtype
    config := mergeConfigurations baseTemplate.config layoutInfo supplierProfile
    performance :=
      { usageCount := 0
        successCount := 0
        averageScore := (3/5 : ℚ)
        averageProcessingTime := baseTemplate.performance.averageProcessingTime
        averageProductCount := baseTemplate.performance.averageProductCount
        lastUsed := none
        confidenceHistory := [] }
    learningData :=
      { layoutPatterns := baseTemplate.learningData.layoutPatterns ++ [layoutInfo.characteristics]
        successfulExtractions := []
        failedExtractions := []
        adaptationHistory :=
          [{ timestamp := nowISO
             baseTemplate := baseTemplate.id
             reason := "Low confidence match"
             adaptations := identifyAdaptations baseTemplate layoutInfo }] }
    metadata := baseTemplate.metadata }

/-- `this.templates` is a JS `Map`; `set` updates an existing key in
place or appends a new binding. -/
def templatesSet : List (String × Template) → String → Template → List (String × Template)
  | [], k, v => [(k, v)]
  | kv :: rest, k, v => if kv.1 == k then (k, v) :: rest else kv :: templatesSet rest k v

/-- `this.templates.get(key)`. -/
def templatesGet (store : List (String × Template)) (k : String) : Option Template :=
  (store.find? (fun kv => kv.1 == k)).map Prod.snd

/-- The store effect of `createAdaptiveTemplate`:
`this.templates.set(templateId, adaptiveTemplate)` plus the returned
clone. -/
def createAdaptiveTemplateRun (store : List (String × Template)) (supplier : String)
    (layoutInfo : LayoutInfo) (baseTemplate : Template)
    (supplierProfile : Option SupplierProfile) (templateId nowISO nowMsStr : String) :
    List (String × Template) × Template :=
  let t := createAdaptiveTemplate supplier layoutInfo baseTemplate supplierProfile templateId nowISO nowMsStr
  (templatesSet store templateId t, t)

/-- `this.matchingWeights`. -/
structure MatchingWeights where
  layoutType : ℚ
  pricePatterns : ℚ
  columnStructure : ℚ
  fileFormat : ℚ
  supplierHistory : ℚ
deriving DecidableEq, Repr

/-- The weights installed in the constructor. -/
def matchingWeights : MatchingWeights :=
  { layoutType := (3/10 : ℚ)
    pricePatterns := (1/4 : ℚ)
    columnStructure := (1/5 : ℚ)
    fileFormat := (3/20 : ℚ)
    supplierHistory := (1/10 : ℚ) }

/-- `calculateLayoutScore(template, layoutInfo)`. -/
def calculateLayoutScore (t : Template) (li : LayoutInfo) : ℚ :=
  if t.layoutType = li.type then
    (if t.subtype = li.subtype then 1 else (4/5 : ℚ))
  else if t.layoutType = "generic" then (1/2 : ℚ)
  else (1/5 : ℚ)

/-- `calculatePricePatternScore(template, layoutInfo)`. -/
def calculatePricePatternScore (t : Template) (li : LayoutInfo) : ℚ :=
  match li.characteristics with
  | none => (1/2 : ℚ)
  | some ch =>
    match ch.pricePatterns with
    | none => (1/2 : ℚ)
    | some current =>
      match ((t.learningData.layoutPatterns.head?).getD none).bind (fun c => c.pricePatterns) with
      | none => (1/2 : ℚ)
      | some tp =>
        let matchScore : ℚ :=
          (if tp.primaryFormat = current.primaryFormat then (3/10 : ℚ) else 0) +
          (if tp.hasNewRRP = current.hasNewRRP then (1/5 : ℚ) else 0) +
          (if tp.hasOldRRP = current.hasOldRRP then (1/5 : ℚ) else 0) +
          (let td := jsOrQ (some tp.totalPriceReferences) 0
           let cd := jsOrQ (some current.totalPriceReferences) 0
           if 0 < td ∧ 0 < cd then (min td cd / max td cd) * (3/10 : ℚ) else 0)
        let totalChecks : ℚ := (3/10 : ℚ) + (1/5 : ℚ) + (1/5 : ℚ) + (3/10 : ℚ)
        if 0 < totalChecks then matchScore / totalChecks else (1/2 : ℚ)

/-- `calculateColumnStructureScore(template, layoutInfo)`.  When the
template has column mappings but the descriptor carries no
`characteristics`, the JS code dereferences `undefined` and throws; that
is modelled as the `.error` case. -/
def calculateColumnStructureScore (t : Template) (li : LayoutInfo) : Except String ℚ :=
  if li.fileSizeTruthy then .ok ((1/2 : ℚ))
  else
    match t.config.columnMappings with
    | none => .ok ((1/2 : ℚ))
    | some _ =>
      match li.characteristics with
      | none => .error "TypeError: cannot read sheets of undefined"
      | some ch =>
        match ch.sheets with
        | none => .ok ((1/2 : ℚ))
        | some sheets =>
          let templateSheetCount := jsOrQ t.config.expectedSheetCount 1
          let currentSheetCount := jsOrQ ch.sheetCount 1
          let s1 : ℚ :=
            if templateSheetCount = currentSheetCount then (3/10 : ℚ)
            else if |templateSheetCount - currentSheetCount| ≤ 1 then (3/20 : ℚ)
            else 0
          match sheets.head?, t.config.primarySheetConfig with
          | some primarySheet, some sheetConfig =>
            let s2 : ℚ :=
              if |jsOrQ sheetConfig.expectedColumns 0 - jsOrQ primarySheet.columnCount 0| ≤ 2 then (1/5 : ℚ) else 0
            let s3 : ℚ :=
              if sheetConfig.hasHeaders = (primarySheet.hasHeaders.map HeaderDetection.detected) then (1/5 : ℚ) else 0
            let qualityDiff :=
              |jsOrQ sheetConfig.expectedDataQuality ((1/2 : ℚ)) -
                jsOrQ (primarySheet.dataStructure.map DataStructureInfo.dataQuality) ((1/2 : ℚ))|
            let s4 : ℚ := if qualityDiff < (1/5 : ℚ) then (3/10 : ℚ) else 0
            let totalChecks : ℚ := (3/10 : ℚ) + (1/5 : ℚ) + (1/5 : ℚ) + (3/10 : ℚ)
            .ok (if 0 < totalChecks then (s1 + s2 + s3 + s4) / totalChecks else (1/2 : ℚ))
          | _, _ =>
            let totalChecks : ℚ := (3/10 : ℚ)
            .ok (if 0 < totalChecks then s1 / totalChecks else (1/2 : ℚ))

/-- `calculateFileFormatScore(template, layoutInfo)`. -/
def calculateFileFormatScore (t : Template) (li : LayoutInfo) : ℚ :=
  let currentFormat := if li.fileSizeTruthy then "pdf" else "excel"
  if t.metadata.fileFormat = currentFormat then 1
  else if t.metadata.fileFormat = "generic" then (3/5 : ℚ)
  else (3/10 : ℚ)

/-- `calculateSupplierHistoryScore(template, supplierProfile)`; the
`Date.now()` read is the `now` parameter (epoch milliseconds). -/
def calculateSupplierHistoryScore (t : Template) (profile : Option SupplierProfile)
    (now : ℚ) : ℚ :=
  match profile with
  | none => (1/2 : ℚ)
  | some p =>
    let supplierSuccessRate :=
      jsOrQ ((p.templateSuccessRates.find? (fun kv => kv.1 == t.id)).map Prod.snd) 0
    let daysSinceLastUse : ℚ :=
      match t.performance.lastUsed with
      | some ts => (now - ts) / (1000 * 60 * 60 * 24)
      | none => 365
    let recencyBonus := max 0 (1 - daysSinceLastUse / 30)
    supplierSuccessRate * (7/10 : ℚ) + recencyBonus * (3/10 : ℚ)

/-- `calculateTemplateScore(template, layoutInfo, supplierProfile)`:
weighted sum of the five sub-scores plus the flat
`performance.averageScore * 0.1` bonus, clamped from above by
`Math.min(1.0, totalScore)` **after** the bonus is added. -/
def calculateTemplateScore (t : Template) (li : LayoutInfo)
    (profile : Option SupplierProfile) (now : ℚ) : Except String ℚ :=
  (calculateColumnStructureScore t li).map (fun columnScore =>
    let totalScore :=
      calculateLayoutScore t li * matchingWeights.layoutType +
      calculatePricePatternScore t li * matchingWeights.pricePatterns +
      columnScore * matchingWeights.columnStructure +
      calculateFileFormatScore t li * matchingWeights.fileFormat +
      calculateSupplierHistoryScore t profile now * matchingWeights.supplierHistory +
      t.performance.averageScore * (1/10 : ℚ)
    min 1 totalScore)

/-- `updateAverage(currentAverage, newValue, count)`. -/
def updateAverage (currentAverage newValue : ℚ) (count : Nat) : ℚ :=
  if count ≤ 1 then newValue
  else (currentAverage * ((count : ℚ) - 1) + newValue) / (count : ℚ)

/-- The outcome metrics consumed by `updatePerformanceMetrics`. -/
structure SuccessMetrics where
  overallScore : ℚ
  processingTime : ℚ
  extractedCount : ℚ
  confidence : ℚ
deriving DecidableEq, Repr

/-- `updatePerformanceMetrics(currentPerformance, successMetrics)`; the
`new Date()` read is the `now` parameter. -/
def updatePerformanceMetrics (perf : Performance) (m : SuccessMetrics) (now : ℚ) : Performance :=
  let usageCount := perf.usageCount + 1
  let successCount := if (3/5 : ℚ) < m.overallScore then perf.successCount + 1 else perf.successCount
  let averageScore := updateAverage perf.averageScore m.overallScore usageCount
  let averageProcessingTime := updateAverage perf.averageProcessingTime m.processingTime usageCount
  let averageProductCount := updateAverage perf.averageProductCount m.extractedCount usageCount
  let history :=
    let h := perf.confidenceHistory ++ [m.confidence]
    if 10 < h.length then h.drop 1 else h
  { usageCount := usageCount
    successCount := successCount
    averageScore := averageScore
    averageProcessingTime := averageProcessingTime
    averageProductCount := averageProductCount
    lastUsed := some now
    confidenceHistory := history }

end TemplateManager

namespace LayoutDetector

/-- The layout descriptor returned by `analyzeLayout`. -/
structure LayoutInfo where
  type : String
  subtype : Option String
  confidence : ℚ
  error : Option String
  fallbackStrategy : Option String
  aiEnhanced : Bool
deriving DecidableEq, Repr

/-- ASCII lower-casing of one character, as `String.toLowerCase` does for
the extensions at hand. -/
def lowerChar (c : Char) : Char :=
  if 'A' ≤ c ∧ c ≤ 'Z' then Char.ofNat (c.toNat + 32) else c

/-- `path.extname(filename)`: the suffix of the last path segment from
its last dot, empty when the segment has no dot or starts with its only
dot. -/
def extname (filename : String) : String :=
  let basename := ((filename.data.reverse.takeWhile (fun c => c ≠ '/')).reverse)
  let afterDot := basename.reverse.takeWhile (fun c => c ≠ '.')
  if afterDot.length = basename.length then ""
  else
    let dotPos := basename.length - (afterDot.length + 1)
    if dotPos = 0 then "" else String.mk (basename.drop dotPos)

/-- `getFileType(filename)`. -/
def getFileType (filename : String) : String :=
  let ext := String.mk ((extname filename).data.map lowerChar)
  if ext = ".pdf" then "pdf"
  else if ext = ".xlsx" ∨ ext = ".xls" then "excel"
  else "unknown"

/-- `enhanceWithAI` (its internal try block cannot throw): confidence
bumped by 0.1 clamped to 1, tagged `aiEnhanced`. -/
def enhanceWithAI (li : LayoutInfo) : LayoutInfo :=
  { li with confidence := min 1 (li.confidence + (1/10 : ℚ)), aiEnhanced := true }

/-- `analyzeLayout(fileBuffer, filename)`.  The two inner analyzers are
externally-decoded results passed as `Except` values (`.error` models the
decode/parse exception they rethrow); an unsupported extension throws
inside the same `try`.  The surrounding `catch` converts any of these
exceptions into the low-confidence `unknown` descriptor, so the function
itself is total and never throws. -/
def analyzeLayout (filename : String) (pdfResult excelResult : Except String LayoutInfo)
    (anthropic : Bool) (confidenceThreshold : ℚ) : LayoutInfo :=
  let fileType := getFileType filename
  let core : Except String LayoutInfo :=
    if fileType = "pdf" then pdfResult
    else if fileType = "excel" then excelResult
    else .error ("Unsupported file type: " ++ fileType)
  match core with
  | .ok layoutInfo =>
    if layoutInfo.confidence < confidenceThreshold ∧ anthropic then enhanceWithAI layoutInfo
    else layoutInfo
  | .error msg =>
    { type := "unknown"
      subtype := none
      confidence := (1/10 : ℚ)
      error := some msg
      fallbackStrategy := some "generic"
      aiEnhanced := false }

end LayoutDetector

namespace PriceAgent

/-! The price agent's Denon/Marantz PDF extractor.  Lines are lists of
characters; the regular expressions of the source are implemented as
explicit scanners with exact JS backtracking behaviour (the analysis of
each pattern shows where greedy scanning is forced and where the lazy
groups require search).  Prices are built with `mkRat` so that concrete
runs reduce inside the kernel. -/

/-- JS `\d`. -/
def isDigitCh (c : Char) : Bool := decide ('0' ≤ c ∧ c ≤ '9')

/-- JS `\s` (the whitespace characters relevant to these pricelists). -/
def isSpaceCh (c : Char) : Bool :=
  c == ' ' || c == '\t' || c == '\n' || c == '\r' ||
    c == Char.ofNat 11 || c == Char.ofNat 12

/-- `String.prototype.trim`. -/
def jsTrim (s : List Char) : List Char :=
  ((s.dropWhile isSpaceCh).reverse.dropWhile isSpaceCh).reverse

/-- Does `s` start with `sub`? -/
def leadsWith : List Char → List Char → Bool
  | [], _ => true
  | _ :: _, [] => false
  | a :: as, b :: bs => a == b && leadsWith as bs

/-- `String.prototype.includes` (case-sensitive substring test). -/
def hasSub : List Char → List Char → Bool
  | [], sub => sub.isEmpty
  | c :: rest, sub => leadsWith sub (c :: rest) || hasSub rest sub

/-- `String.prototype.indexOf`, `none` for `-1`. -/
def indexOfSub : List Char → List Char → Option Nat
  | s, sub =>
    if leadsWith sub s then some 0
    else
      match s with
      | [] => none
      | _ :: rest => (indexOfSub rest sub).map (· + 1)

/-- ASCII lower-casing (for the `/i` flags). -/
def lowerCh (c : Char) : Char :=
  if 'A' ≤ c ∧ c ≤ 'Z' then Char.ofNat (c.toNat + 32) else c

/-- Digit-string to natural number. -/
def digitsToNat (l : List Char) : Nat :=
  l.foldl (fun n c => n * 10 + (c.toNat - 48)) 0

/-- `parseFloat` on a cleaned string of digits with at most one dot:
integer part plus two-digit fraction as an exact rational. -/
def parseDigitsDotQ (l : List Char) : ℚ :=
  let ip := l.takeWhile (fun c => c ≠ '.')
  let fp := l.drop (ip.length + 1)
  mkRat (digitsToNat (ip ++ fp)) (10 ^ fp.length)

/-- `parseFloat(tok.replace(/,/g, ''))` on a token matched by the price
number pattern. -/
def parseNumQ (tok : List Char) : ℚ :=
  parseDigitsDotQ (tok.filter (fun c => c ≠ ','))

/-- The `(?:,\d{3})*` part of the price number pattern, greedy. -/
def scanGroups : List Char → List Char × List Char
  | ',' :: a :: b :: c :: rest =>
    if isDigitCh a && isDigitCh b && isDigitCh c then
      let (g, r) := scanGroups rest
      (',' :: a :: b :: c :: g, r)
    else ([], ',' :: a :: b :: c :: rest)
  | s => ([], s)

/-- The `(?:\.\d{2})?` part, greedy. -/
def scanFrac : List Char → List Char × List Char
  | '.' :: a :: b :: rest =>
    if isDigitCh a && isDigitCh b then (['.', a, b], rest)
    else ([], '.' :: a :: b :: rest)
  | s => ([], s)

/-- The number pattern `\d{1,3}(?:,\d{3})*(?:\.\d{2})?`.  Greedy,
no backtracking needed: each later component consumes nothing on
failure.  Returns the matched token and the rest. -/
def numScan (s : List Char) : Option (List Char × List Char) :=
  let d := (s.takeWhile isDigitCh).take 3
  if d.isEmpty then none
  else
    let s1 := s.drop d.length
    let (g, s2) := scanGroups s1
    let (f, s3) := scanFrac s2
    some (d ++ g ++ f, s3)

/-- `R\s*NUM` anchored at the current position; returns the matched text
and the rest. -/
def rMatchAt : List Char → Option (List Char × List Char)
  | 'R' :: rest =>
    let ws := rest.takeWhile isSpaceCh
    match numScan (rest.drop ws.length) with
    | some (num, r) => some ('R' :: (ws ++ num), r)
    | none => none
  | _ => none

/-- Global scan of `/R\s*(\d{1,3}(?:,\d{3})*(?:\.\d{2})?)/g` — the list
of matched strings, leftmost first, continuing after each match. -/
def rMatchesF : Nat → List Char → List (List Char)
  | 0, _ => []
  | _ + 1, [] => []
  | fuel + 1, c :: rest =>
    match rMatchAt (c :: rest) with
    | some (m, r) => m :: rMatchesF fuel r
    | none => rMatchesF fuel rest

/-- `line.match(/R\s*NUM/g)` (empty list for `null`). -/
def rMatches (s : List Char) : List (List Char) := rMatchesF s.length s

/-- `R\s*NUM` at the current position, returning the parsed value. -/
def rNumAt (s : List Char) : Option (ℚ × List Char) :=
  (rMatchAt s).map (fun mr => (parseNumQ (mr.1.drop 1), mr.2))

/-- `\s+R`: at least one whitespace then a literal `R` (deterministic:
the whitespace run is maximal because `R` is not whitespace). -/
def afterWsR (s : List Char) : Option (List Char) :=
  let ws := s.takeWhile isSpaceCh
  if ws.isEmpty then none
  else
    match s.drop ws.length with
    | 'R' :: r => some r
    | _ => none

/-- `\s+R\s*NUM`, returning the parsed value and the rest. -/
def wsRNum (s : List Char) : Option (ℚ × List Char) :=
  (afterWsR s).bind fun r =>
    let ws2 := r.takeWhile isSpaceCh
    (numScan (r.drop ws2.length)).map fun nr => (parseNumQ nr.1, nr.2)

/-- `\s+R\s*(NUM)\s+R\s*(NUM)$` — the suffix shared by the two-price
patterns of methods 1–3. -/
def twoPriceSuffix (s : List Char) : Option (ℚ × ℚ) :=
  (wsRNum s).bind fun nr1 =>
    (wsRNum nr1.2).bind fun nr2 =>
      if nr2.2.isEmpty then some (nr1.1, nr2.1) else none

/-- The lazy group `(.+?)` of method 1: try the shortest non-empty
prefix first, then extend, exactly as the JS engine does (the suffix
parse is deterministic, so no other backtracking exists). -/
def method1Aux : List Char → List Char → Option (List Char × ℚ × ℚ)
  | _, [] => none
  | name, c :: rest =>
    let name' := name ++ [c]
    match twoPriceSuffix rest with
    | some nn => some (name', nn.1, nn.2)
    | none => method1Aux name' rest

/-- Method 1 — `/^(.+?)\s+R\s*(NUM)\s+R\s*(NUM)$/` on one line:
`(group1, oldRRP, newRRP)`. -/
def method1 (line : List Char) : Option (List Char × ℚ × ℚ) :=
  method1Aux [] line

/-- After method 2's first price: `\s+(.+?)\s+R\s*(NUM)\s+R\s*(NUM)$`.
The first `\s+` is greedy, so the engine tries the largest whitespace
prefix first and shrinks it only when no split of the remaining text
matches; for each prefix the lazy group grows from one character. -/
def method2TryW2 (r2 : List Char) : Nat → Option (List Char × ℚ × ℚ)
  | 0 => none
  | w2 + 1 =>
    match method1Aux [] (r2.drop (w2 + 1)) with
    | some res => some res
    | none => method2TryW2 r2 w2

/-- The part of method 2 after the first captured price. -/
def method2AfterNum1 (r2 : List Char) : Option (List Char × ℚ × ℚ) :=
  let w2max := (r2.takeWhile isSpaceCh).length
  method2TryW2 r2 w2max

/-- Method 2's outer lazy group and first price:
`/(.+?)\s+R\s*(NUM)\s+(.+?)\s+R\s*(NUM)\s+R\s*(NUM)$/` yielding
`(group1, price1, group3, oldRRP2, newRRP2)`. -/
def method2Aux : List Char → List Char → Option (List Char × ℚ × List Char × ℚ × ℚ)
  | _, [] => none
  | name, c :: rest =>
    let name' := name ++ [c]
    match wsRNum rest with
    | some nr =>
      (match method2AfterNum1 nr.2 with
       | some g3 => some (name', nr.1, g3.1, g3.2.1, g3.2.2)
       | none => method2Aux name' rest)
    | none => method2Aux name' rest

/-- Method 2 — mixed line with two products. -/
def method2 (line : List Char) : Option (List Char × ℚ × List Char × ℚ × ℚ) :=
  method2Aux [] line

/-- `/R\s*\d/` test used to guard method 3. -/
def rTest : List Char → Bool
  | [] => false
  | 'R' :: rest =>
    (let ws := rest.takeWhile isSpaceCh
     match rest.drop ws.length with
     | c :: _ => isDigitCh c
     | [] => false) || rTest rest
  | _ :: rest => rTest rest

/-- `/R\s*(NUM)\s+R\s*(NUM)$/` at one position. -/
def twoPricesAt (s : List Char) : Option (ℚ × ℚ) :=
  (rNumAt s).bind fun nr1 =>
    (wsRNum nr1.2).bind fun nr2 =>
      if nr2.2.isEmpty then some (nr1.1, nr2.1) else none

/-- Unanchored leftmost search for the two-price line pattern. -/
def twoPricesSearch : List Char → Option (ℚ × ℚ)
  | [] => none
  | c :: rest =>
    match twoPricesAt (c :: rest) with
    | some res => some res
    | none => twoPricesSearch rest

/-- `/R\s*(NUM)$/` at one position. -/
def onePriceAt (s : List Char) : Option ℚ :=
  (rNumAt s).bind fun nr => if nr.2.isEmpty then some nr.1 else none

/-- Unanchored leftmost search for the single-price line pattern. -/
def onePriceSearch : List Char → Option ℚ
  | [] => none
  | c :: rest =>
    match onePriceAt (c :: rest) with
    | some res => some res
    | none => onePriceSearch rest

/-- Outcome of probing one look-ahead line in method 3. -/
inductive PriceLine where
  | two (oldRRP newRRP : ℚ)
  | one (price : ℚ)
deriving DecidableEq, Repr

/-- Method 3's per-line probe: two prices first, else one price. -/
def tryPriceLine (line : List Char) : Option PriceLine :=
  match twoPricesSearch line with
  | some tp => some (.two tp.1 tp.2)
  | none =>
    match onePriceSearch line with
    | some p => some (.one p)
    | none => none

/-- Method 3's look-ahead over the next 1–3 clean lines
(`for j = i+1; j < Math.min(i+4, length)`), returning the hit and its
offset from `i`. -/
def lookaheadFrom (cl : List (List Char)) (i : Nat) : Nat → Nat → Option (PriceLine × Nat)
  | 0, _ => none
  | fuel + 1, o =>
    if i + o < min (i + 4) cl.length then
      match tryPriceLine (cl.getD (i + o) []) with
      | some res => some (res, o)
      | none => lookaheadFrom cl i fuel (o + 1)
    else none

/-- The look-ahead starting at `j = i + 1`. -/
def lookahead (cl : List (List Char)) (i : Nat) : Option (PriceLine × Nat) :=
  lookaheadFrom cl i 3 1

/-- A product record as pushed by `extractFromDenonMarantzPDF`
(diagnostic string fields — `priceSelectionReason`, `allPricesFound` —
are not modelled). -/
structure Product where
  name : String
  price : ℚ
  supplier : String
  description : String
  specifications : String
  category : String
  priceType : String
  sourceLine : Nat
  oldRRP : Option ℚ
  newRRP : Option ℚ
deriving DecidableEq, Repr

/-- A `priceColumnsFound` entry. -/
structure PriceColumn where
  type : String
  pattern : String
  priority : ℚ
deriving DecidableEq, Repr

/-- The line filter at the top of `extractFromDenonMarantzPDF`:
trim, drop empties, drop `##` lines, drop the standalone section words
(`/^(April|Black|White|AV Receivers|Denon Home)$/i`). -/
def isSkipWord (l : List Char) : Bool :=
  let low := l.map lowerCh
  low == "april".data || low == "black".data || low == "white".data ||
    low == "av receivers".data || low == "denon home".data

/-- `cleanLines`. -/
def cleanLines (lines : List (List Char)) : List (List Char) :=
  (lines.map jsTrim).filter
    (fun l => decide (0 < l.length) && !(hasSub l "##".data) && !(isSkipWord l))

/-- The in-loop header skip:
`line.includes('Old RRP') || line.includes('New RRP') ||
 line.includes('April 2025') || line.length < 10`. -/
def isHeaderLine (l : List Char) : Bool :=
  hasSub l "Old RRP".data || hasSub l "New RRP".data ||
    hasSub l "April 2025".data || decide (l.length < 10)

/-- Method 4 — the multi-price fallback on the current line: with at
least two currency matches on a line longer than 20 characters and a
plausible product name (longer than 5 characters, no `R`) before the
first match, emit the **last** matched price. -/
def method4 (supplier : String) (sourceIdx : Nat) (line : List Char) : Option Product :=
  let allPrices := rMatches line
  if 2 ≤ allPrices.length ∧ 20 < line.length then
    let firstPriceIndex := (indexOfSub line (allPrices.head?.getD [])).getD 0
    let productName := jsTrim (line.take firstPriceIndex)
    if 5 < productName.length ∧ hasSub productName ['R'] = false then
      some
        { name := String.mk productName
          price := parseDigitsDotQ ((allPrices.getLast?.getD []).filter (fun c => isDigitCh c || c == '.'))
          supplier := supplier
          description := String.mk productName
          specifications := ""
          category := "uncategorized"
          priceType := "New RRP"
          sourceLine := sourceIdx + 1
          oldRRP := none
          newRRP := none }
    else none
  else none

/-- The main extraction loop of `extractFromDenonMarantzPDF`; `fuel`
bounds the iteration count (one unit per loop entry, and the index
strictly increases), so `fuel = cleanLines.length` is always enough. -/
def denonLoopF : Nat → String → List (List Char) → Nat → List Product
  | 0, _, _, _ => []
  | fuel + 1, supplier, cl, i =>
    if i < cl.length then
      let line := cl.getD i []
      if isHeaderLine line then denonLoopF fuel supplier cl (i + 1)
      else
        match method1 line with
        | some m1 =>
          { name := String.mk (jsTrim m1.1)
            price := m1.2.2
            supplier := supplier
            description := String.mk (jsTrim m1.1)
            specifications := ""
            category := "uncategorized"
            priceType := "New RRP"
            sourceLine := i + 1
            oldRRP := some m1.2.1
            newRRP := some m1.2.2 } :: denonLoopF fuel supplier cl (i + 1)
        | none =>
          match method2 line with
          | some m2 =>
            { name := String.mk (jsTrim m2.1)
              price := m2.2.1
              supplier := supplier
              description := String.mk (jsTrim m2.1)
              specifications := ""
              category := "uncategorized"
              priceType := "RRP"
              sourceLine := i + 1
              oldRRP := none
              newRRP := none } ::
            { name := String.mk (jsTrim m2.2.2.1)
              price := m2.2.2.2.2
              supplier := supplier
              description := String.mk (jsTrim m2.2.2.1)
              specifications := ""
              category := "uncategorized"
              priceType := "New RRP"
              sourceLine := i + 1
              oldRRP := some m2.2.2.2.1
              newRRP := some m2.2.2.2.2 } :: denonLoopF fuel supplier cl (i + 1)
          | none =>
            let m3 : Option (PriceLine × Nat) :=
              if rTest line = false ∧ 10 < line.length then lookahead cl i else none
            let m3prods : List Product :=
              match m3 with
              | some (.two o n, _) =>
                [{ name := String.mk line
                   price := n
                   supplier := supplier
                   description := String.mk line
                   specifications := ""
                   category := "uncategorized"
                   priceType := "New RRP"
                   sourceLine := i + 1
                   oldRRP := some o
                   newRRP := some n }]
              | some (.one p, _) =>
                [{ name := String.mk line
                   price := p
                   supplier := supplier
                   description := String.mk line
                   specifications := ""
                   category := "uncategorized"
                   priceType := "RRP"
                   sourceLine := i + 1
                   oldRRP := none
                   newRRP := none }]
              | none => []
            let nextI : Nat :=
              match m3 with
              | some (_, o) => i + o
              | none => i
            let m4prods : List Product :=
              match method4 supplier nextI line with
              | some p => [p]
              | none => []
            m3prods ++ m4prods ++ denonLoopF fuel supplier cl (nextI + 1)
    else []

/-- `extractFromDenonMarantzPDF(lines, supplierConfig)`: the products in
emission order plus the unconditionally recorded `'New RRP'` price
column. -/
def extractFromDenonMarantzPDF (supplier : String) (lines : List String) :
    List Product × List PriceColumn :=
  let cl := cleanLines (lines.map String.data)
  (denonLoopF cl.length supplier cl 0,
   [{ type := "New RRP", pattern := "Denon/Marantz Column Format", priority := 1 }])

/-- `[...new Set(xs)]` — deduplicate keeping first occurrences. -/
def dedupKeepFirst (l : List String) : List String :=
  dedupAux [] l
where dedupAux (seen : List String) : List String → List String
  | [] => []
  | x :: rest =>
    if seen.any (fun s => s == x) then dedupAux seen rest
    else x :: dedupAux (x :: seen) rest

/-- `calculateConfidenceScore(products, priceColumnsFound)` — every
contribution is integral, so the score is an integer clamped to
`[0, 100]`. -/
def calculateConfidenceScore (products : List Product) (priceColumnsFound : List PriceColumn) : ℤ :=
  let base : ℤ := if 0 < products.length then 30 else 0
  let hasNewRRP := priceColumnsFound.any (fun col => col.type == "New RRP")
  let newBonus : ℤ := if hasNewRRP then 40 else 0
  let uniqueTypes := dedupKeepFirst (products.map Product.priceType)
  let consistencyBonus : ℤ := if uniqueTypes.length = 1 then 20 else 0
  let hasOldRRP := priceColumnsFound.any (fun col => col.type == "Old RRP")
  let oldPenalty : ℤ := if hasOldRRP ∧ ¬ (hasNewRRP = true) then -20 else 0
  let countBonus : ℤ := if 10 ≤ products.length then 10 else 0
  max 0 (min 100 (base + newBonus + consistencyBonus + oldPenalty + countBonus))

end PriceAgent

namespace PriceEngine

/-! The layered price-pattern scanner of `analyzePricesInLine`.  Each
regex family of `initializePricePatterns` is a label/currency prefix
followed by the shared number pattern; the scanner implements exact JS
semantics (greedy components are forced here, as in the `PriceAgent`
patterns, so no backtracking search is needed). -/

/-- One component of a price regex. -/
inductive RTok where
  /-- a literal (stored lower-case when the pattern is `/i`) -/
  | lit (s : String)
  /-- `\s+` -/
  | ws1
  /-- `\s*` -/
  | wsStar
  /-- `[:\s]*` -/
  | colonWs
  /-- `R?` -/
  | optR
  /-- the captured number `\d{1,3}(?:,\d{3})*(?:\.\d{2})?` -/
  | num
deriving DecidableEq, Repr

/-- A price regex: case-insensitivity flag, leading `\b`, components. -/
structure PricePattern where
  ci : Bool
  boundary : Bool
  toks : List RTok
deriving DecidableEq, Repr

/-- JS `\w` (word character, for `\b`). -/
def isWordCh (c : Char) : Bool :=
  PriceAgent.isDigitCh c || decide ('a' ≤ c ∧ c ≤ 'z') || decide ('A' ≤ c ∧ c ≤ 'Z') || c == '_'

/-- Strip a literal, case-insensitively when `ci`. -/
def stripLitCI (ci : Bool) : List Char → List Char → Option (List Char)
  | [], s => some s
  | _ :: _, [] => none
  | a :: as, b :: bs =>
    if (if ci then PriceAgent.lowerCh b == PriceAgent.lowerCh a else b == a) then
      stripLitCI ci as bs
    else none

/-- Match one component at the current position: consumed length, rest,
and the captured number token if this component is the capture group. -/
def tokScan (ci : Bool) : RTok → List Char → Option (Nat × List Char × Option (List Char))
  | .lit litStr, s =>
    (stripLitCI ci litStr.data s).map fun rest => (litStr.length, rest, none)
  | .ws1, s =>
    let ws := s.takeWhile PriceAgent.isSpaceCh
    if ws.isEmpty then none else some (ws.length, s.drop ws.length, none)
  | .wsStar, s =>
    let ws := s.takeWhile PriceAgent.isSpaceCh
    some (ws.length, s.drop ws.length, none)
  | .colonWs, s =>
    let cs := s.takeWhile (fun c => c == ':' || PriceAgent.isSpaceCh c)
    some (cs.length, s.drop cs.length, none)
  | .optR, s =>
    match s with
    | c :: rest =>
      if (ci && (c == 'R' || c == 'r')) || (!ci && c == 'R') then some (1, rest, none)
      else some (0, c :: rest, none)
    | [] => some (0, [], none)
  | .num, s =>
    (PriceAgent.numScan s).map fun nr => (nr.1.length, nr.2, some nr.1)

/-- Run all components in order. -/
def runToks (ci : Bool) : List RTok → List Char → Option (Nat × Option (List Char))
  | [], _ => some (0, none)
  | t :: ts, s =>
    match tokScan ci t s with
    | none => none
    | some (n, rest, cap) =>
      match runToks ci ts rest with
      | none => none
      | some (n2, cap2) => some (n + n2, cap.orElse (fun _ => cap2))

/-- Match a whole pattern at the current position (`prev` is the
character before it, for the word boundary); returns the match length
and the captured number token. -/
def patMatchAt (p : PricePattern) (prev : Option Char) (s : List Char) :
    Option (Nat × List Char) :=
  if p.boundary && (match prev with | none => false | some c => isWordCh c) then none
  else
    match runToks p.ci p.toks s with
    | none => none
    | some (len, cap) =>
      match cap with
      | some capTok => some (len, capTok)
      | none => none

/-- Global scan (`g` flag): leftmost match, then continue after its end;
produces `(position, matched text, captured number)` triples. -/
def scanPatF (p : PricePattern) : Nat → Option Char → Nat → List Char →
    List (Nat × List Char × List Char)
  | 0, _, _, _ => []
  | fuel + 1, prev, pos, s =>
    match s with
    | [] => []
    | c :: rest =>
      match patMatchAt p prev (c :: rest) with
      | some (len, cap) =>
        (pos, (c :: rest).take len, cap) ::
          scanPatF p fuel (((c :: rest).take len).getLast?.getD c) (pos + len)
            ((c :: rest).drop len)
      | none => scanPatF p fuel c (pos + 1) rest

/-- All matches of one pattern over the line. -/
def scanPat (p : PricePattern) (text : List Char) : List (Nat × List Char × List Char) :=
  scanPatF p text.length none 0 text

/-- `detectCurrency(text)`. -/
def detectCurrency (text : List Char) : String :=
  if PriceAgent.hasSub text ['R'] then "ZAR"
  else if PriceAgent.hasSub text ['$'] then "USD"
  else if PriceAgent.hasSub text ['€'] then "EUR"
  else if PriceAgent.hasSub text ['£'] then "GBP"
  else "ZAR"

/-- One entry of the `matches` array built by `findPriceMatches`. -/
structure PMatch where
  value : ℚ
  position : Nat
  raw : String
  currency : String
deriving DecidableEq, Repr

/-- `findPriceMatches(text, patterns)`: per pattern, every global-scan
match with positive parsed value. -/
def findPriceMatches (text : List Char) (patterns : List PricePattern) : List PMatch :=
  patterns.foldr (fun p acc =>
    ((scanPat p text).filterMap fun m =>
      let value := PriceAgent.parseNumQ m.2.2
      if 0 < value then
        some { value := value, position := m.1, raw := String.mk m.2.1,
               currency := detectCurrency m.2.1 }
      else none) ++ acc) []

/-- The shared tail `[:\s]*R?\s*NUM` of the labelled patterns. -/
def numTail : List RTok := [.colonWs, .optR, .wsStar, .num]

/-- `this.pricePatterns.newRRP`. -/
def newRRPPats : List PricePattern :=
  [⟨true, false, [.lit "new", .ws1, .lit "rrp"] ++ numTail⟩,
   ⟨true, false, [.lit "new", .ws1, .lit "recommended", .ws1, .lit "retail", .ws1, .lit "price"] ++ numTail⟩,
   ⟨true, false, [.lit "new_rrp"] ++ numTail⟩]

/-- `this.pricePatterns.oldRRP`. -/
def oldRRPPats : List PricePattern :=
  [⟨true, false, [.lit "old", .ws1, .lit "rrp"] ++ numTail⟩,
   ⟨true, false, [.lit "old", .ws1, .lit "recommended", .ws1, .lit "retail", .ws1, .lit "price"] ++ numTail⟩,
   ⟨true, false, [.lit "old_rrp"] ++ numTail⟩,
   ⟨true, false, [.lit "previous", .ws1, .lit "rrp"] ++ numTail⟩]

/-- `this.pricePatterns.rrp`. -/
def rrpPats : List PricePattern :=
  [⟨true, true, [.lit "rrp"] ++ numTail⟩,
   ⟨true, false, [.lit "recommended", .ws1, .lit "retail", .ws1, .lit "price"] ++ numTail⟩,
   ⟨true, false, [.lit "retail"] ++ numTail⟩]

/-- `this.pricePatterns.cost`. -/
def costPats : List PricePattern :=
  [⟨true, false, [.lit "cost"] ++ numTail⟩,
   ⟨true, false, [.lit "cost", .ws1, .lit "price"] ++ numTail⟩,
   ⟨true, false, [.lit "wholesale"] ++ numTail⟩]

/-- `this.pricePatterns.general`. -/
def generalPats : List PricePattern :=
  [⟨false, false, [.lit "R", .wsStar, .num]⟩,
   ⟨false, false, [.lit "$", .wsStar, .num]⟩,
   ⟨false, false, [.lit "€", .wsStar, .num]⟩,
   ⟨true, false, [.lit "price"] ++ numTail⟩]

/-- `isPositionAlreadyMatched(position, existingPrices)`. -/
def isPositionAlreadyMatched (position : Nat) (existingPrices : List PriceInfo) : Bool :=
  existingPrices.any (fun price => ((price.position : ℤ) - (position : ℤ)).natAbs < 10)

/-- Build the candidate object pushed for one match. -/
def mkPriceInfo (ty : String) (priority confidence : ℚ) (m : PMatch) : PriceInfo :=
  { value := m.value, type := ty, priority := priority, confidence := confidence,
    position := m.position, rawMatch := m.raw, currency := m.currency }

/-- The guarded push loops of the three lower-priority families: a match
is appended only when no already-collected candidate lies within 10
characters. -/
def pushGuarded (ty : String) (priority confidence : ℚ) (acc : List PriceInfo)
    (ms : List PMatch) : List PriceInfo :=
  ms.foldl (fun acc m =>
    if isPositionAlreadyMatched m.position acc then acc
    else acc ++ [mkPriceInfo ty priority confidence m]) acc

/-- `getMostCommonCurrency(currencies)`: occurrence counts in insertion
order, stable-sorted descending — the first maximum wins. -/
def getMostCommonCurrency (currencies : List String) : String :=
  if currencies.isEmpty then "ZAR"
  else
    let counts := currencies.foldl (fun (acc : List (String × Nat)) c =>
      if acc.any (fun kv => kv.1 == c) then
        acc.map (fun kv => if kv.1 == c then (kv.1, kv.2 + 1) else kv)
      else acc ++ [(c, 1)]) []
    ((counts.foldl (fun best kv =>
      match best with
      | none => some kv
      | some b => if b.2 < kv.2 then some kv else some b) none).map Prod.fst).getD "ZAR"

/-- The analysis object returned by `analyzePricesInLine`. -/
structure LineAnalysis where
  line : String
  prices : List PriceInfo
  hasNewRRP : Bool
  hasOldRRP : Bool
  primaryCurrency : String
deriving DecidableEq, Repr

/-- `analyzePricesInLine(line)`: New RRP and Old RRP candidates are
pushed unconditionally; general RRP, Cost and generic Price candidates
pass the `isPositionAlreadyMatched` guard against everything collected
so far. -/
def analyzePricesInLine (line : List Char) : LineAnalysis :=
  let newRRPMatches := findPriceMatches line newRRPPats
  let prices1 := newRRPMatches.map (mkPriceInfo "New RRP" 100 (mkRat 19 20))
  let oldRRPMatches := findPriceMatches line oldRRPPats
  let prices2 := prices1 ++ oldRRPMatches.map (mkPriceInfo "Old RRP" 50 (mkRat 17 20))
  let prices3 := pushGuarded "RRP" 80 (mkRat 4 5) prices2 (findPriceMatches line rrpPats)
  let prices4 := pushGuarded "Cost" 40 (mkRat 7 10) prices3 (findPriceMatches line costPats)
  let prices5 := pushGuarded "Price" 20 (mkRat 3 5) prices4 (findPriceMatches line generalPats)
  { line := String.mk line
    prices := prices5
    hasNewRRP := !newRRPMatches.isEmpty
    hasOldRRP := !oldRRPMatches.isEmpty
    primaryCurrency :=
      getMostCommonCurrency ((prices5.map PriceInfo.currency).filter (fun c => c ≠ "")) }

/-- The C9 suppression property: every `RRP`/`Cost`/`Price` candidate in
the list sits at least 10 characters away from every candidate recorded
before it in the scan. -/
def FarFromEarlier (l : List PriceInfo) : Prop :=
  ∀ i j p q, i < j → l.get? i = some p → l.get? j = some q →
    (q.type = "RRP" ∨ q.type = "Cost" ∨ q.type = "Price") →
    10 ≤ (((p.position : ℤ) - (q.position : ℤ)).natAbs)

end PriceEngine

namespace PriceEngine

/-- `priceGt a b = false` says `a`'s key `(priority, confidence)` is
lexicographically at most `b`'s. -/
lemma priceGt_eq_false {a b : PriceInfo} :
    priceGt a b = false ↔
      a.priority < b.priority ∨ (a.priority = b.priority ∧ a.confidence ≤ b.confidence) := by
  unfold priceGt
  by_cases hp : a.priority = b.priority
  · simp [hp]
  · rw [if_pos hp, decide_eq_false_iff_not, not_lt]
    constructor
    · intro h
      exact Or.inl (lt_of_le_of_ne h hp)
    · rintro (h | ⟨h, _⟩)
      · exact le_of_lt h
      · exact absurd h hp

/-- `priceGt a b = true` says `a`'s key is lexicographically above `b`'s. -/
lemma priceGt_eq_true {a b : PriceInfo} :
    priceGt a b = true ↔
      b.priority < a.priority ∨ (a.priority = b.priority ∧ b.confidence < a.confidence) := by
  unfold priceGt
  by_cases hp : a.priority = b.priority
  · simp [hp]
  · rw [if_pos hp, decide_eq_true_eq]
    constructor
    · intro h
      exact Or.inl h
    · rintro (h | ⟨h, _⟩)
      · exact h
      · exact absurd h hp

/-- Transitivity of "does not beat". -/
lemma priceGt_false_trans {x y z : PriceInfo}
    (h1 : priceGt x y = false) (h2 : priceGt y z = false) :
    priceGt x z = false := by
  rw [priceGt_eq_false] at h1 h2 ⊢
  rcases h1 with h1 | ⟨h1, h1c⟩ <;> rcases h2 with h2 | ⟨h2, h2c⟩
  · exact Or.inl (h1.trans h2)
  · exact Or.inl (h2 ▸ h1)
  · exact Or.inl (h1 ▸ h2)
  · exact Or.inr ⟨h1.trans h2, h1c.trans h2c⟩

/-- If `x` beats `y` then `y` does not beat `x`. -/
lemma priceGt_asymm {x y : PriceInfo} (h : priceGt x y = true) :
    priceGt y x = false := by
  rw [priceGt_eq_true] at h
  rw [priceGt_eq_false]
  rcases h with h | ⟨h, hc⟩
  · exact Or.inl h
  · exact Or.inr ⟨h.symm, le_of_lt hc⟩

/-- Invariant of the `selectBestPrice` fold: the running best is a member
of `acc :: l` and no element of `acc :: l` strictly beats it. -/
lemma foldl_best_spec (l : List PriceInfo) (acc : PriceInfo) :
    (List.foldl (fun best q => if priceGt q best then q else best) acc l = acc ∨
      List.foldl (fun best q => if priceGt q best then q else best) acc l ∈ l) ∧
    priceGt acc (List.foldl (fun best q => if priceGt q best then q else best) acc l) = false ∧
    ∀ q ∈ l, priceGt q (List.foldl (fun best q => if priceGt q best then q else best) acc l) = false := by
  induction l generalizing acc with
  | nil =>
    refine ⟨Or.inl rfl, ?_, ?_⟩
    · rw [priceGt_eq_false]; exact Or.inr ⟨rfl, le_refl _⟩
    · intro q hq; exact absurd hq (List.not_mem_nil q)
  | cons x xs ih =>
    rw [List.foldl_cons]
    by_cases hx : priceGt x acc = true
    · rw [if_pos hx]
      obtain ⟨hmem, hx', hall'⟩ := ih x
      refine ⟨?_, ?_, ?_⟩
      · rcases hmem with h' | h'
        · exact Or.inr (by rw [h']; exact List.mem_cons_self _ _)
        · exact Or.inr (List.mem_cons_of_mem _ h')
      · exact priceGt_false_trans (priceGt_asymm hx) hx'
      · intro q hq
        rcases List.mem_cons.mp hq with h' | h'
        · exact h' ▸ hx'
        · exact hall' q h'
    · rw [if_neg hx]
      replace hx : priceGt x acc = false := by simpa using hx
      obtain ⟨hmem, hacc', hall'⟩ := ih acc
      refine ⟨?_, hacc', ?_⟩
      · rcases hmem with h' | h'
        · exact Or.inl h'
        · exact Or.inr (List.mem_cons_of_mem _ h')
      · intro q hq
        rcases List.mem_cons.mp hq with h' | h'
        · exact h' ▸ priceGt_false_trans hx hacc'
        · exact hall' q h'

/-- `selectTop` returns a member of the list that no element of the list
strictly beats. -/
lemma selectTop_spec (p : PriceInfo) (rest : List PriceInfo) :
    ∃ t, selectTop (p :: rest) = some t ∧ t ∈ p :: rest ∧
      ∀ q ∈ p :: rest, priceGt q t = false := by
  obtain ⟨hmem, hacc, hall⟩ := foldl_best_spec rest p
  refine ⟨_, rfl, ?_, ?_⟩
  · rcases hmem with h' | h'
    · rw [h']; exact List.mem_cons_self _ _
    · exact List.mem_cons_of_mem _ h'
  · intro q hq
    rcases List.mem_cons.mp hq with h' | h'
    · exact h' ▸ hacc
    · exact hall q h'

lemma priceGt_self (p : PriceInfo) : priceGt p p = false := by
  rw [priceGt_eq_false]; exact Or.inr ⟨rfl, le_refl _⟩

/-- Boosting the winner does not let any non-beating candidate overtake
it, provided its confidence respects the data-model range (`≤ 1`). -/
lemma priceGt_boost_false {q b : PriceInfo} (hconf : b.confidence ≤ 1)
    (h : priceGt q b = false) : priceGt q (boostNewRRP b) = false := by
  unfold boostNewRRP
  by_cases hty : b.type = "New RRP"
  · rw [if_pos hty]
    rw [priceGt_eq_false] at h ⊢
    rcases h with h | ⟨h, hc⟩
    · exact Or.inl h
    · refine Or.inr ⟨h, hc.trans (le_min hconf (by linarith))⟩
  · rw [if_neg hty]; exact h

/-- C1. `selectBestPrice` is total and deterministic on non-empty input:
it returns exactly one candidate, that candidate is (a copy of) the
`(priority desc, confidence desc)`-maximal element of the input (first
among ties, matching the stable JS sort), and — whenever the input
confidences respect the documented `[0,1]` range — the returned candidate
itself is beaten by no input candidate.  Determinism holds because
`selectBestPrice` is a function of the input list. -/
theorem selectBestPrice_total_and_maximal (ps : List PriceInfo) (hne : ps ≠ []) :
    ∃ t, selectBestPrice ps = some t ∧
      ∃ b ∈ ps, (t = b ∨ t = boostNewRRP b) ∧
        (∀ q ∈ ps, priceGt q b = false) ∧
        ((∀ q ∈ ps, q.confidence ≤ 1) → ∀ q ∈ ps, priceGt q t = false) := by
  match ps with
  | [] => exact absurd rfl hne
  | [p] =>
    refine ⟨p, rfl, p, List.mem_singleton.mpr rfl, Or.inl rfl, ?_, ?_⟩
    · intro q hq
      rw [List.mem_singleton.mp hq]
      exact priceGt_self p
    · intro _ q hq
      rw [List.mem_singleton.mp hq]
      exact priceGt_self p
  | p :: q :: rest =>
    obtain ⟨t0, ht0, hmem, hall⟩ := selectTop_spec p (q :: rest)
    refine ⟨boostNewRRP t0, ?_, t0, hmem, Or.inr rfl, hall, ?_⟩
    · show (selectTop (p :: q :: rest)).map boostNewRRP = _
      rw [ht0]; rfl
    · intro hconf r hr
      exact priceGt_boost_false (hconf t0 hmem) (hall r hr)

/-- Witness for C1 at a concrete two-candidate input. -/
theorem selectBestPrice_total_and_maximal_witness :
    ([⟨100, "Old RRP", 50, 17/20, 0, "Old RRP: R100", "ZAR"⟩,
      ⟨120, "New RRP", 100, 19/20, 9, "New RRP: R120", "ZAR"⟩] : List PriceInfo) ≠ [] ∧
    ∃ t, selectBestPrice
        [⟨100, "Old RRP", 50, 17/20, 0, "Old RRP: R100", "ZAR"⟩,
         ⟨120, "New RRP", 100, 19/20, 9, "New RRP: R120", "ZAR"⟩] = some t ∧
      ∃ b ∈ ([⟨100, "Old RRP", 50, 17/20, 0, "Old RRP: R100", "ZAR"⟩,
              ⟨120, "New RRP", 100, 19/20, 9, "New RRP: R120", "ZAR"⟩] : List PriceInfo),
        (t = b ∨ t = boostNewRRP b) ∧
        (∀ q ∈ ([⟨100, "Old RRP", 50, 17/20, 0, "Old RRP: R100", "ZAR"⟩,
                 ⟨120, "New RRP", 100, 19/20, 9, "New RRP: R120", "ZAR"⟩] : List PriceInfo),
            priceGt q b = false) ∧
        ((∀ q ∈ ([⟨100, "Old RRP", 50, 17/20, 0, "Old RRP: R100", "ZAR"⟩,
                  ⟨120, "New RRP", 100, 19/20, 9, "New RRP: R120", "ZAR"⟩] : List PriceInfo),
            q.confidence ≤ 1) →
          ∀ q ∈ ([⟨100, "Old RRP", 50, 17/20, 0, "Old RRP: R100", "ZAR"⟩,
                  ⟨120, "New RRP", 100, 19/20, 9, "New RRP: R120", "ZAR"⟩] : List PriceInfo),
            priceGt q t = false) :=
  ⟨by decide, selectBestPrice_total_and_maximal _ (by decide)⟩

/-- C2 fails as stated: on a singleton list whose only candidate is a
`'New RRP'` candidate (priority 100, confidence 0.95, exactly as
`analyzePricesInLine` builds them), `selectBestPrice` returns the
candidate through the early `length === 1` return, so its confidence
stays 0.95 instead of `min(1.0, 0.95 + 0.1) = 1.0`. -/
theorem selectBestPrice_singleton_skips_boost :
    selectBestPrice [⟨9990, "New RRP", 100, 19/20, 0, "New RRP: R9,990.00", "ZAR"⟩] =
      some ⟨9990, "New RRP", 100, 19/20, 0, "New RRP: R9,990.00", "ZAR"⟩ ∧
    ¬ ((selectBestPrice [⟨9990, "New RRP", 100, 19/20, 0, "New RRP: R9,990.00", "ZAR"⟩]).map
        PriceInfo.confidence = some (min 1 (19/20 + 1/10))) := by
  constructor
  · rfl
  · intro h
    simp only [selectBestPrice, Option.map_some'] at h
    have : (19 : ℚ)/20 = min 1 (19/20 + 1/10) := by injection h
    rw [show min (1 : ℚ) (19/20 + 1/10) = 1 by norm_num] at this
    norm_num at this

/-- C2 (amended). For every candidate list with **at least two** elements
whose selected maximal element has kind `'New RRP'`, the returned
candidate's confidence is exactly `min(1.0, input confidence + 0.1)`,
hence at least the input confidence whenever that confidence is in the
documented `[0,1]` range.  (Singleton lists skip the boost.) -/
theorem selectBestPrice_newRRP_boost (p q : PriceInfo) (rest : List PriceInfo)
    (t : PriceInfo) (ht : selectTop (p :: q :: rest) = some t)
    (hty : t.type = "New RRP") :
    (selectBestPrice (p :: q :: rest)).map PriceInfo.confidence =
      some (min 1 (t.confidence + 1/10)) ∧
    (t.confidence ≤ 1 → t.confidence ≤ min 1 (t.confidence + 1/10)) := by
  constructor
  · show ((selectTop (p :: q :: rest)).map boostNewRRP).map PriceInfo.confidence = _
    rw [ht]
    simp only [Option.map_some', boostNewRRP, if_pos hty]
  · intro h
    exact le_min h (by linarith)

/-- Witness for the amended C2 at the spec's own example
`{Old=100@50, New=120@100}`: the boost fires and the result confidence is
`min(1, 0.95 + 0.1) = 1 ≥ 0.95`. -/
theorem selectBestPrice_newRRP_boost_witness :
    selectTop [⟨100, "Old RRP", 50, 17/20, 0, "Old RRP: R100", "ZAR"⟩,
               ⟨120, "New RRP", 100, 19/20, 9, "New RRP: R120", "ZAR"⟩] =
      some ⟨120, "New RRP", 100, 19/20, 9, "New RRP: R120", "ZAR"⟩ ∧
    (selectBestPrice [⟨100, "Old RRP", 50, 17/20, 0, "Old RRP: R100", "ZAR"⟩,
                      ⟨120, "New RRP", 100, 19/20, 9, "New RRP: R120", "ZAR"⟩]).map
        PriceInfo.confidence = some (min 1 (19/20 + 1/10)) := by
  have h1 : priceGt (⟨120, "New RRP", 100, 19/20, 9, "New RRP: R120", "ZAR"⟩ : PriceInfo)
      ⟨100, "Old RRP", 50, 17/20, 0, "Old RRP: R100", "ZAR"⟩ = true := by
    rw [priceGt_eq_true]; exact Or.inl (by norm_num)
  have hsel : selectTop [⟨100, "Old RRP", 50, 17/20, 0, "Old RRP: R100", "ZAR"⟩,
      ⟨120, "New RRP", 100, 19/20, 9, "New RRP: R120", "ZAR"⟩] =
      some ⟨120, "New RRP", 100, 19/20, 9, "New RRP: R120", "ZAR"⟩ := by
    show some (List.foldl (fun best q => if priceGt q best then q else best)
        ⟨100, "Old RRP", 50, 17/20, 0, "Old RRP: R100", "ZAR"⟩
        [⟨120, "New RRP", 100, 19/20, 9, "New RRP: R120", "ZAR"⟩]) = _
    rw [List.foldl_cons, List.foldl_nil, if_pos h1]
  exact ⟨hsel, (selectBestPrice_newRRP_boost _ _ _ _ hsel rfl).1⟩

end PriceEngine

namespace TemplateManager

/-- `Map.set` leaves every other key's binding untouched. -/
lemma templatesGet_templatesSet_ne (s : List (String × Template)) (k k' : String)
    (v : Template) (h : k' ≠ k) :
    templatesGet (templatesSet s k v) k' = templatesGet s k' := by
  induction s with
  | nil =>
    simp only [templatesSet, templatesGet, List.find?]
    rw [show (k == k') = false from beq_eq_false_iff_ne.mpr (fun he => h he.symm)]
  | cons kv rest ih =>
    by_cases hk : kv.1 == k
    · rw [templatesSet, if_pos hk]
      have hkv : kv.1 = k := eq_of_beq hk
      simp only [templatesGet, List.find?]
      rw [show (k == k') = false from beq_eq_false_iff_ne.mpr (fun he => h he.symm),
        show (kv.1 == k') = false from beq_eq_false_iff_ne.mpr (by rw [hkv]; exact fun he => h he.symm)]
    · rw [templatesSet, if_neg hk]
      by_cases hk' : kv.1 == k'
      · simp only [templatesGet, List.find?, hk']
      · simp only [templatesGet, List.find?, hk']
        exact ih

/-- C7. Synthesizing an adaptive clone never mutates the ancestor: the
clone is built from a structural deep copy
(`JSON.parse(JSON.stringify(baseTemplate))`, and `mergeConfigurations`
deep-copies the base config), the only store write is under the fresh
`uuidv4()` key, so the ancestor's stored entry — its `config` and
`version` included — is unchanged, while the clone carries its own
version `"1.0.0-adaptive"` and a `baseTemplate` pointer to the ancestor's
id. -/
theorem createAdaptiveTemplate_preserves_base (store : List (String × Template))
    (supplier : String) (layoutInfo : LayoutInfo) (baseTemplate : Template)
    (supplierProfile : Option SupplierProfile) (templateId nowISO nowMsStr : String)
    (hfresh : templateId ≠ baseTemplate.id) :
    templatesGet (createAdaptiveTemplateRun store supplier layoutInfo baseTemplate
        supplierProfile templateId nowISO nowMsStr).1 baseTemplate.id =
      templatesGet store baseTemplate.id ∧
    (createAdaptiveTemplateRun store supplier layoutInfo baseTemplate
        supplierProfile templateId nowISO nowMsStr).2.version = "1.0.0-adaptive" ∧
    (createAdaptiveTemplateRun store supplier layoutInfo baseTemplate
        supplierProfile templateId nowISO nowMsStr).2.baseTemplate = some baseTemplate.id ∧
    (createAdaptiveTemplateRun store supplier layoutInfo baseTemplate
        supplierProfile templateId nowISO nowMsStr).2.id = templateId ∧
    (createAdaptiveTemplateRun store supplier layoutInfo baseTemplate
        supplierProfile templateId nowISO nowMsStr).2.config =
      mergeConfigurations baseTemplate.config layoutInfo supplierProfile :=
  ⟨templatesGet_templatesSet_ne store templateId baseTemplate.id _ (Ne.symm hfresh),
    rfl, rfl, rfl, rfl⟩

/-- Witness for C7 on a concrete one-template store. -/
theorem createAdaptiveTemplate_preserves_base_witness :
    let baseT : Template :=
      { id := "base-1", name := "Denon table", version := "1.2.0", created := none,
        updated := none, baseTemplate := none, layoutType := "table", subtype := "simple",
        config := { processingHints := none, validationConfig := { confidenceThreshold := 7/10 },
                    columnMappings := none, expectedSheetCount := none, primarySheetConfig := none },
        performance := { usageCount := 3, successCount := 2, averageScore := 1/2,
                         averageProcessingTime := 100, averageProductCount := 12,
                         lastUsed := none, confidenceHistory := [] },
        learningData := { layoutPatterns := [], successfulExtractions := [],
                          failedExtractions := [], adaptationHistory := [] },
        metadata := { fileFormat := "pdf" } }
    let li : LayoutInfo :=
      { type := "table", subtype := "simple", confidence := 3/5,
        characteristics := none, metadata := none, processingHints := none }
    ("tid-2" : String) ≠ baseT.id ∧
    templatesGet (createAdaptiveTemplateRun [("base-1", baseT)] "Denon" li baseT none
        "tid-2" "2025-04-01T00:00:00Z" "1743465600000").1 baseT.id =
      templatesGet [("base-1", baseT)] baseT.id ∧
    (createAdaptiveTemplateRun [("base-1", baseT)] "Denon" li baseT none
        "tid-2" "2025-04-01T00:00:00Z" "1743465600000").2.version = "1.0.0-adaptive" ∧
    (createAdaptiveTemplateRun [("base-1", baseT)] "Denon" li baseT none
        "tid-2" "2025-04-01T00:00:00Z" "1743465600000").2.baseTemplate = some baseT.id := by
  intro baseT li
  have h := createAdaptiveTemplate_preserves_base [("base-1", baseT)] "Denon" li baseT none
    "tid-2" "2025-04-01T00:00:00Z" "1743465600000" (by decide)
  exact ⟨by decide, h.1, h.2.1, h.2.2.1⟩

/-- C8 (amended). Strictly increasing `performance.averageScore` (every
other sub-score fixed) never decreases the total match score, and
strictly increases it whenever the smaller score is below the final
`Math.min(1.0, …)` clamp; at saturation both scores are clamped to 1. -/
theorem calculateTemplateScore_averageScore_monotone
    (t : Template) (li : LayoutInfo) (profile : Option SupplierProfile)
    (now a b s₁ s₂ : ℚ) (hab : a < b)
    (h₁ : calculateTemplateScore { t with performance := { t.performance with averageScore := a } }
        li profile now = .ok s₁)
    (h₂ : calculateTemplateScore { t with performance := { t.performance with averageScore := b } }
        li profile now = .ok s₂) :
    s₁ ≤ s₂ ∧ (s₁ < 1 → s₁ < s₂) := by
  have eColA : calculateColumnStructureScore
      { t with performance := { t.performance with averageScore := a } } li =
      calculateColumnStructureScore t li := rfl
  have eColB : calculateColumnStructureScore
      { t with performance := { t.performance with averageScore := b } } li =
      calculateColumnStructureScore t li := rfl
  have eLa : calculateLayoutScore { t with performance := { t.performance with averageScore := a } } li =
      calculateLayoutScore t li := rfl
  have eLb : calculateLayoutScore { t with performance := { t.performance with averageScore := b } } li =
      calculateLayoutScore t li := rfl
  have ePa : calculatePricePatternScore { t with performance := { t.performance with averageScore := a } } li =
      calculatePricePatternScore t li := rfl
  have ePb : calculatePricePatternScore { t with performance := { t.performance with averageScore := b } } li =
      calculatePricePatternScore t li := rfl
  have eFa : calculateFileFormatScore { t with performance := { t.performance with averageScore := a } } li =
      calculateFileFormatScore t li := rfl
  have eFb : calculateFileFormatScore { t with performance := { t.performance with averageScore := b } } li =
      calculateFileFormatScore t li := rfl
  have eHa : calculateSupplierHistoryScore { t with performance := { t.performance with averageScore := a } } profile now =
      calculateSupplierHistoryScore t profile now := rfl
  have eHb : calculateSupplierHistoryScore { t with performance := { t.performance with averageScore := b } } profile now =
      calculateSupplierHistoryScore t profile now := rfl
  cases hcol : calculateColumnStructureScore t li with
  | error e =>
    rw [calculateTemplateScore, eColA, hcol] at h₁
    simp only [Except.map] at h₁
    exact Except.noConfusion h₁
  | ok c =>
    rw [calculateTemplateScore, eColA, hcol] at h₁
    rw [calculateTemplateScore, eColB, hcol] at h₂
    simp only [Except.map, Except.ok.injEq] at h₁ h₂
    rw [eLa, ePa, eFa, eHa] at h₁
    rw [eLb, ePb, eFb, eHb] at h₂
    set S : ℚ :=
      calculateLayoutScore t li * matchingWeights.layoutType +
      calculatePricePatternScore t li * matchingWeights.pricePatterns +
      c * matchingWeights.columnStructure +
      calculateFileFormatScore t li * matchingWeights.fileFormat +
      calculateSupplierHistoryScore t profile now * matchingWeights.supplierHistory with hS
    have h₁' : min 1 (S + a * (1/10 : ℚ)) = s₁ := h₁
    have h₂' : min 1 (S + b * (1/10 : ℚ)) = s₂ := h₂
    constructor
    · rw [← h₁', ← h₂']
      apply min_le_min le_rfl
      have := mul_le_mul_of_nonneg_right (le_of_lt hab) (by norm_num : (0:ℚ) ≤ 1/10)
      linarith
    · intro hs₁
      have hlt : S + a * (1/10 : ℚ) < 1 := by
        by_contra hge
        push_neg at hge
        rw [← h₁', min_eq_left hge] at hs₁
        exact lt_irrefl _ hs₁
      have hs₁eq : s₁ = S + a * (1/10 : ℚ) := by
        rw [← h₁', min_eq_right (le_of_lt hlt)]
      rw [hs₁eq, ← h₂']
      apply lt_min hlt
      have := mul_lt_mul_of_pos_right hab (by norm_num : (0:ℚ) < 1/10)
      linarith

end TemplateManager

namespace TemplateManager

/-- C8 fails as stated: the `Math.min(1.0, …)` clamp is applied **after**
the `averageScore × 0.1` bonus, so once the weighted sum saturates the
clamp, strictly increasing `averageScore` (here 0.5 → 0.6, all other
sub-scores fixed at a fully matching layout/profile) leaves the total
match score unchanged at 1. -/
theorem calculateTemplateScore_saturation_counterexample :
    let pp : PricePatternsInfo :=
      { primaryFormat := "R", hasNewRRP := true, hasOldRRP := false, totalPriceReferences := 5 }
    let sheet : SheetInfo :=
      { columnCount := some 3, hasHeaders := some { detected := true },
        dataStructure := some { dataQuality := 1/2 } }
    let ch : Characteristics :=
      { pricePatterns := some pp, sheets := some [sheet], sheetCount := some 1 }
    let learned : Characteristics :=
      { pricePatterns := some pp, sheets := none, sheetCount := none }
    let li : LayoutInfo :=
      { type := "table", subtype := "simple", confidence := 4/5,
        characteristics := some ch, metadata := none, processingHints := none }
    let t : Template :=
      { id := "t1", name := "excel table", version := "1.0.0", created := none, updated := none,
        baseTemplate := none, layoutType := "table", subtype := "simple",
        config := { processingHints := none, validationConfig := { confidenceThreshold := 7/10 },
                    columnMappings := some [("name", [0])], expectedSheetCount := some 1,
                    primarySheetConfig := some { expectedColumns := some 3, hasHeaders := some true,
                                                 expectedDataQuality := some (1/2) } },
        performance := { usageCount := 1, successCount := 1, averageScore := 1/2,
                         averageProcessingTime := 0, averageProductCount := 0,
                         lastUsed := none, confidenceHistory := [] },
        learningData := { layoutPatterns := [some learned],
                          successfulExtractions := [], failedExtractions := [],
                          adaptationHistory := [] },
        metadata := { fileFormat := "excel" } }
    let prof : SupplierProfile := { templateSuccessRates := [("t1", 1)], learningPreferences := none }
    ((1:ℚ)/2 < 3/5) ∧
    calculateTemplateScore t li (some prof) 0 = .ok 1 ∧
    calculateTemplateScore { t with performance := { t.performance with averageScore := 3/5 } }
      li (some prof) 0 = .ok 1 := by
  refine ⟨by norm_num, ?_, ?_⟩ <;>
    · rw [calculateTemplateScore]
      rw [show calculateColumnStructureScore _ _ = Except.ok 1 by
        rw [calculateColumnStructureScore]
        norm_num [LayoutInfo.fileSizeTruthy, jsOrQ]]
      simp only [Except.map, Except.ok.injEq]
      rw [calculateLayoutScore, calculatePricePatternScore, calculateFileFormatScore,
        calculateSupplierHistoryScore]
      norm_num [jsOrQ, LayoutInfo.fileSizeTruthy, matchingWeights]

end TemplateManager

namespace TemplateManager

/-- Witness for the amended C8 at a below-clamp input: raising
`averageScore` from 0.2 to 0.4 raises the total score from 0.745 to
0.765. -/
theorem calculateTemplateScore_averageScore_monotone_witness :
    let li : LayoutInfo :=
      { type := "table", subtype := "simple", confidence := 4/5,
        characteristics := none, metadata := none, processingHints := none }
    let t : Template :=
      { id := "t1", name := "plain", version := "1.0.0", created := none, updated := none,
        baseTemplate := none, layoutType := "table", subtype := "simple",
        config := { processingHints := none, validationConfig := { confidenceThreshold := 7/10 },
                    columnMappings := none, expectedSheetCount := none, primarySheetConfig := none },
        performance := { usageCount := 1, successCount := 1, averageScore := 0,
                         averageProcessingTime := 0, averageProductCount := 0,
                         lastUsed := none, confidenceHistory := [] },
        learningData := { layoutPatterns := [], successfulExtractions := [],
                          failedExtractions := [], adaptationHistory := [] },
        metadata := { fileFormat := "excel" } }
    ((1:ℚ)/5 < 2/5) ∧
    calculateTemplateScore { t with performance := { t.performance with averageScore := 1/5 } }
      li none 0 = .ok (149/200) ∧
    calculateTemplateScore { t with performance := { t.performance with averageScore := 2/5 } }
      li none 0 = .ok (153/200) ∧
    (((149:ℚ)/200 ≤ 153/200) ∧ ((149:ℚ)/200 < 1 → (149:ℚ)/200 < 153/200)) := by
  intro li t
  have h₁ : calculateTemplateScore { t with performance := { t.performance with averageScore := 1/5 } }
      li none 0 = .ok (149/200) := by
    rw [calculateTemplateScore]
    rw [show calculateColumnStructureScore { t with performance := { t.performance with averageScore := 1/5 } } li =
        Except.ok (1/2) by rw [calculateColumnStructureScore]; norm_num [LayoutInfo.fileSizeTruthy]]
    simp only [Except.map, Except.ok.injEq]
    rw [calculateLayoutScore, calculatePricePatternScore, calculateFileFormatScore,
      calculateSupplierHistoryScore]
    norm_num [LayoutInfo.fileSizeTruthy, matchingWeights]
  have h₂ : calculateTemplateScore { t with performance := { t.performance with averageScore := 2/5 } }
      li none 0 = .ok (153/200) := by
    rw [calculateTemplateScore]
    rw [show calculateColumnStructureScore { t with performance := { t.performance with averageScore := 2/5 } } li =
        Except.ok (1/2) by rw [calculateColumnStructureScore]; norm_num [LayoutInfo.fileSizeTruthy]]
    simp only [Except.map, Except.ok.injEq]
    rw [calculateLayoutScore, calculatePricePatternScore, calculateFileFormatScore,
      calculateSupplierHistoryScore]
    norm_num [LayoutInfo.fileSizeTruthy, matchingWeights]
  exact ⟨by norm_num, h₁, h₂,
    calculateTemplateScore_averageScore_monotone t li none 0 (1/5) (2/5) (149/200) (153/200)
      (by norm_num) h₁ h₂⟩

/-- C10. `updateAverage(current, newValue, count)` returns `newValue`
exactly when `count ≤ 1` and the rolling blend
`((current·(count−1))+newValue)/count` otherwise; consequently, since
`updatePerformanceMetrics` increments `usageCount` before blending, a
template's first recorded outcome (`usageCount = 0` beforehand) replaces
the initial default `averageScore` outright. -/
theorem updateAverage_spec :
    (∀ (c n : ℚ) (k : Nat), k ≤ 1 → updateAverage c n k = n) ∧
    (∀ (c n : ℚ) (k : Nat), 1 < k →
      updateAverage c n k = (c * ((k:ℚ) - 1) + n) / (k:ℚ)) ∧
    (∀ (perf : Performance) (m : SuccessMetrics) (now : ℚ), perf.usageCount = 0 →
      (updatePerformanceMetrics perf m now).averageScore = m.overallScore) := by
  refine ⟨?_, ?_, ?_⟩
  · intro c n k hk
    rw [updateAverage, if_pos hk]
  · intro c n k hk
    rw [updateAverage, if_neg (by omega)]
  · intro perf m now h
    show updateAverage perf.averageScore m.overallScore (perf.usageCount + 1) = m.overallScore
    rw [h, updateAverage, if_pos (by norm_num)]

/-- Witness for C10: first outcome (count 1) replaces the default 0.5
average; count 2 blends. -/
theorem updateAverage_spec_witness :
    ((1:Nat) ≤ 1 ∧ updateAverage 5 7 1 = 7) ∧
    ((1:Nat) < 2 ∧ updateAverage 4 10 2 = (4 * ((2:ℚ) - 1) + 10) / 2) ∧
    (updatePerformanceMetrics
        { usageCount := 0, successCount := 0, averageScore := 1/2,
          averageProcessingTime := 0, averageProductCount := 0,
          lastUsed := none, confidenceHistory := [] }
        { overallScore := 9/10, processingTime := 100, extractedCount := 12, confidence := 4/5 }
        0).averageScore = 9/10 :=
  ⟨⟨le_refl 1, updateAverage_spec.1 5 7 1 (le_refl 1)⟩,
   ⟨by omega, updateAverage_spec.2.1 4 10 2 (by omega)⟩,
   updateAverage_spec.2.2 _ _ 0 rfl⟩

end TemplateManager

namespace LayoutDetector

/-- C6. `analyzeLayout` never lets an exception escape: the whole body
runs inside `try … catch`, and the embedding is a total function.  On any
decode/parse failure of the chosen analyzer — and on the unsupported-type
throw — the returned descriptor is exactly
`{type: 'unknown', confidence: 0.1, error, fallbackStrategy: 'generic'}`. -/
theorem analyzeLayout_decode_failure (filename : String)
    (pdfResult excelResult : Except String LayoutInfo)
    (anthropic : Bool) (confidenceThreshold : ℚ) (msg : String)
    (hfail : (getFileType filename = "pdf" ∧ pdfResult = .error msg) ∨
             (getFileType filename = "excel" ∧ excelResult = .error msg) ∨
             (getFileType filename ≠ "pdf" ∧ getFileType filename ≠ "excel" ∧
               msg = "Unsupported file type: " ++ getFileType filename)) :
    analyzeLayout filename pdfResult excelResult anthropic confidenceThreshold =
      { type := "unknown", subtype := none, confidence := 1/10,
        error := some msg, fallbackStrategy := some "generic", aiEnhanced := false } := by
  rcases hfail with ⟨hft, he⟩ | ⟨hft, he⟩ | ⟨h1, h2, hmsg⟩
  · simp [analyzeLayout, hft, he]
  · simp [analyzeLayout, hft, he]
  · simp [analyzeLayout, h1, h2, hmsg]

/-- Witness for C6: a PDF whose decode fails yields the low-confidence
`unknown` descriptor. -/
theorem analyzeLayout_decode_failure_witness :
    getFileType "pricelist.pdf" = "pdf" ∧
    analyzeLayout "pricelist.pdf"
        (.error "PDF layout analysis failed: bad xref") (.error "unused") true (7/10) =
      { type := "unknown", subtype := none, confidence := 1/10,
        error := some "PDF layout analysis failed: bad xref",
        fallbackStrategy := some "generic", aiEnhanced := false } :=
  ⟨by decide,
   analyzeLayout_decode_failure "pricelist.pdf" (.error "PDF layout analysis failed: bad xref")
     (.error "unused") true (7/10) "PDF layout analysis failed: bad xref"
     (Or.inl ⟨by decide, rfl⟩)⟩

end LayoutDetector

namespace PriceAgent

/-- C4. On the two-price supplier path, the single line
`"AVR-X1700H R9,990.00 R8,990.00"` yields exactly one product named
`"AVR-X1700H"` with price 8990.00 (the second price), kind `'New RRP'`,
and `oldRRP` 9990.00. -/
theorem denon_two_price_single_line :
    (extractFromDenonMarantzPDF "Denon" ["AVR-X1700H R9,990.00 R8,990.00"]).1 =
      [{ name := "AVR-X1700H", price := 8990, supplier := "Denon",
         description := "AVR-X1700H", specifications := "", category := "uncategorized",
         priceType := "New RRP", sourceLine := 1, oldRRP := some 9990,
         newRRP := some 8990 }] := by
  decide

/-- C3 fails as stated: a Denon-path run over zero usable lines yields
zero products, but `extractFromDenonMarantzPDF` has already recorded the
`'New RRP'` price column, so `calculateConfidenceScore` returns 40, not
0. -/
theorem calculateConfidenceScore_zero_products_counterexample :
    (extractFromDenonMarantzPDF "Denon" []).1 = [] ∧
    calculateConfidenceScore (extractFromDenonMarantzPDF "Denon" []).1
      (extractFromDenonMarantzPDF "Denon" []).2 = 40 ∧
    (40 : ℤ) ≠ 0 := by
  decide

/-- C3 (amended). With zero products the run confidence is never
negative and never undefined: it is exactly 40 when a `'New RRP'` price
column was recorded during the run and exactly 0 otherwise (the
products>0, consistency and count bonuses all vanish, and the Old-RRP
penalty is clamped at 0). -/
theorem calculateConfidenceScore_zero_products (cols : List PriceColumn) :
    calculateConfidenceScore [] cols =
      (if cols.any (fun col => col.type == "New RRP") then 40 else 0) ∧
    0 ≤ calculateConfidenceScore [] cols := by
  refine ⟨?_, ?_⟩
  · rw [calculateConfidenceScore]
    by_cases h : cols.any (fun col => col.type == "New RRP") = true
    · simp only [h, if_true]
      norm_num [dedupKeepFirst, dedupKeepFirst.dedupAux]
    · rw [if_neg h]
      simp only [Bool.not_eq_true] at h
      by_cases h2 : cols.any (fun col => col.type == "Old RRP") = true
      · simp [h, h2, dedupKeepFirst, dedupKeepFirst.dedupAux]
      · simp [h, h2, dedupKeepFirst, dedupKeepFirst.dedupAux]
  · exact le_max_left 0 _

end PriceAgent

namespace PriceAgent

/-- C5. On the two-price supplier path, a line that survives cleaning
and the header skip, that methods 1 and 2 do not handle (and that
method 3 skips, since a line holding currency numbers fails its
`!line.match(/R\s*\d/)` guard), with at least two currency-tagged
numbers, length over 20, and a plausible product name (longer than 5
characters, no `R`) before the first price, emits exactly one product
whose price is the **last** currency-tagged number on the line. -/
theorem denon_method4_selects_last_price (supplier : String) (line : List Char)
    (hTrim : jsTrim line = line)
    (hHash : hasSub line "##".data = false)
    (hSkip : isSkipWord line = false)
    (hHdr : isHeaderLine line = false)
    (hM1 : method1 line = none)
    (hM2 : method2 line = none)
    (hR : rTest line = true)
    (hLen : 20 < line.length)
    (hCount : 2 ≤ (rMatches line).length)
    (hName : 5 < (jsTrim (line.take ((indexOfSub line ((rMatches line).head?.getD [])).getD 0))).length)
    (hNoR : hasSub (jsTrim (line.take ((indexOfSub line ((rMatches line).head?.getD [])).getD 0))) ['R'] = false) :
    (extractFromDenonMarantzPDF supplier [String.mk line]).1 =
      [{ name := String.mk (jsTrim (line.take ((indexOfSub line ((rMatches line).head?.getD [])).getD 0)))
         price := parseDigitsDotQ (((rMatches line).getLast?.getD []).filter (fun c => isDigitCh c || c == '.'))
         supplier := supplier
         description := String.mk (jsTrim (line.take ((indexOfSub line ((rMatches line).head?.getD [])).getD 0)))
         specifications := ""
         category := "uncategorized"
         priceType := "New RRP"
         sourceLine := 1
         oldRRP := none
         newRRP := none }] := by
  have hlen0 : (decide (0 < line.length)) = true := by
    simp only [decide_eq_true_eq]
    omega
  have hclean : cleanLines [(String.mk line).data] = [line] := by
    simp [cleanLines, hTrim, hHash, hSkip, hlen0]
  have hm4 : method4 supplier 0 line =
      some
        { name := String.mk (jsTrim (line.take ((indexOfSub line ((rMatches line).head?.getD [])).getD 0)))
          price := parseDigitsDotQ (((rMatches line).getLast?.getD []).filter (fun c => isDigitCh c || c == '.'))
          supplier := supplier
          description := String.mk (jsTrim (line.take ((indexOfSub line ((rMatches line).head?.getD [])).getD 0)))
          specifications := ""
          category := "uncategorized"
          priceType := "New RRP"
          sourceLine := 1
          oldRRP := none
          newRRP := none } := by
    rw [method4, if_pos ⟨hCount, hLen⟩, if_pos ⟨hName, hNoR⟩]
  simp only [extractFromDenonMarantzPDF, List.map, hclean, List.length_singleton]
  simp only [denonLoopF, List.getD_cons_zero, hHdr, hM1, hM2, hR, hm4]
  norm_num
  rw [hm4]

end PriceAgent

namespace PriceAgent

/-- Witness for C5 on a concrete fallback line: two currency numbers, a
plausible name, trailing text that defeats methods 1–3; the emitted
price is the last number, 1490. -/
theorem denon_method4_selects_last_price_witness :
    jsTrim "Subwoofer Cable Kit R1,990.00 R1,490.00 (promo)".data =
      "Subwoofer Cable Kit R1,990.00 R1,490.00 (promo)".data ∧
    hasSub "Subwoofer Cable Kit R1,990.00 R1,490.00 (promo)".data "##".data = false ∧
    isSkipWord "Subwoofer Cable Kit R1,990.00 R1,490.00 (promo)".data = false ∧
    isHeaderLine "Subwoofer Cable Kit R1,990.00 R1,490.00 (promo)".data = false ∧
    method1 "Subwoofer Cable Kit R1,990.00 R1,490.00 (promo)".data = none ∧
    method2 "Subwoofer Cable Kit R1,990.00 R1,490.00 (promo)".data = none ∧
    rTest "Subwoofer Cable Kit R1,990.00 R1,490.00 (promo)".data = true ∧
    20 < "Subwoofer Cable Kit R1,990.00 R1,490.00 (promo)".data.length ∧
    2 ≤ (rMatches "Subwoofer Cable Kit R1,990.00 R1,490.00 (promo)".data).length ∧
    (extractFromDenonMarantzPDF "Denon"
        [String.mk "Subwoofer Cable Kit R1,990.00 R1,490.00 (promo)".data]).1 =
      [{ name := String.mk (jsTrim ("Subwoofer Cable Kit R1,990.00 R1,490.00 (promo)".data.take
            ((indexOfSub "Subwoofer Cable Kit R1,990.00 R1,490.00 (promo)".data
              ((rMatches "Subwoofer Cable Kit R1,990.00 R1,490.00 (promo)".data).head?.getD [])).getD 0)))
         price := parseDigitsDotQ
           (((rMatches "Subwoofer Cable Kit R1,990.00 R1,490.00 (promo)".data).getLast?.getD []).filter
             (fun c => isDigitCh c || c == '.'))
         supplier := "Denon"
         description := String.mk (jsTrim ("Subwoofer Cable Kit R1,990.00 R1,490.00 (promo)".data.take
            ((indexOfSub "Subwoofer Cable Kit R1,990.00 R1,490.00 (promo)".data
              ((rMatches "Subwoofer Cable Kit R1,990.00 R1,490.00 (promo)".data).head?.getD [])).getD 0)))
         specifications := ""
         category := "uncategorized"
         priceType := "New RRP"
         sourceLine := 1
         oldRRP := none
         newRRP := none }] :=
  ⟨by decide, by decide, by decide, by decide, by decide, by decide, by decide, by decide, by decide,
   denon_method4_selects_last_price "Denon" "Subwoofer Cable Kit R1,990.00 R1,490.00 (promo)".data
     (by decide) (by decide) (by decide) (by decide) (by decide) (by decide) (by decide)
     (by decide) (by decide) (by decide) (by decide)⟩

end PriceAgent

namespace PriceEngine

/-- Appending a candidate that passes the position guard preserves the
suppression property. -/
lemma farFromEarlier_append (acc : List PriceInfo) (x : PriceInfo)
    (hguard : isPositionAlreadyMatched x.position acc = false)
    (hacc : FarFromEarlier acc) : FarFromEarlier (acc ++ [x]) := by
  intro i j p q hij hi hj hty
  have hjlen : j < (acc ++ [x]).length := by
    rcases List.get?_eq_some.mp hj with ⟨h, _⟩
    exact h
  by_cases hjacc : j < acc.length
  · have hi' : i < acc.length := lt_trans hij hjacc
    rw [List.get?_append hi'] at hi
    rw [List.get?_append hjacc] at hj
    exact hacc i j p q hij hi hj hty
  · have hge : acc.length ≤ j := le_of_not_lt hjacc
    rw [List.get?_append_right hge] at hj
    have hj0 : j - acc.length = 0 := by
      by_contra hne
      have h1 : 1 ≤ j - acc.length := Nat.one_le_iff_ne_zero.mpr hne
      have : ([x] : List PriceInfo).get? (j - acc.length) = none :=
        List.get?_eq_none.mpr (by simpa using h1)
      rw [this] at hj
      exact Option.noConfusion hj
    rw [hj0] at hj
    have hqx : q = x := by simpa using hj.symm
    have hilen : i < acc.length := by
      simp only [List.length_append, List.length_singleton] at hjlen
      omega
    rw [List.get?_append hilen] at hi
    have hpmem : p ∈ acc := List.get?_mem hi
    simp only [isPositionAlreadyMatched, List.any_eq_false] at hguard
    rw [hqx]
    have h10 := hguard p hpmem
    simp only [decide_eq_true_eq] at h10
    exact not_lt.mp h10

/-- The guarded push loop preserves the suppression property. -/
lemma pushGuarded_preserves (ty : String) (priority confidence : ℚ) (ms : List PMatch) :
    ∀ acc, FarFromEarlier acc → FarFromEarlier (pushGuarded ty priority confidence acc ms) := by
  induction ms with
  | nil => intro acc h; exact h
  | cons m rest ih =>
    intro acc h
    by_cases hg : isPositionAlreadyMatched m.position acc = true
    · have : pushGuarded ty priority confidence acc (m :: rest) =
        pushGuarded ty priority confidence acc rest := by
        simp [pushGuarded, List.foldl_cons, hg]
      rw [this]
      exact ih acc h
    · have hg' : isPositionAlreadyMatched m.position acc = false := by simpa using hg
      have : pushGuarded ty priority confidence acc (m :: rest) =
        pushGuarded ty priority confidence (acc ++ [mkPriceInfo ty priority confidence m]) rest := by
        simp [pushGuarded, List.foldl_cons, hg']
      rw [this]
      exact ih _ (farFromEarlier_append acc _ hg' h)

/-- A list whose members are all `New RRP`/`Old RRP` candidates
satisfies the suppression property vacuously. -/
lemma farFromEarlier_of_highPriority (l : List PriceInfo)
    (hall : ∀ x ∈ l, x.type = "New RRP" ∨ x.type = "Old RRP") : FarFromEarlier l := by
  intro i j p q hij hi hj hty
  have hq := hall q (List.get?_mem hj)
  rcases hq with h | h <;> rcases hty with h2 | h2 | h2 <;> rw [h] at h2 <;> simp at h2

/-- C9. In the candidate list returned by `analyzePricesInLine`, no
lower-priority candidate (general `RRP`, `Cost`, or generic `Price`)
lies within 10 characters of any candidate recorded earlier in the scan:
the `isPositionAlreadyMatched` guard suppresses such near-duplicates
instead of appending them. -/
theorem analyzePricesInLine_no_near_lower_priority (line : List Char) :
    FarFromEarlier (analyzePricesInLine line).prices := by
  have hbase : FarFromEarlier
      ((findPriceMatches line newRRPPats).map (mkPriceInfo "New RRP" 100 (mkRat 19 20)) ++
       (findPriceMatches line oldRRPPats).map (mkPriceInfo "Old RRP" 50 (mkRat 17 20))) := by
    apply farFromEarlier_of_highPriority
    intro x hx
    rcases List.mem_append.mp hx with h | h
    · rcases List.mem_map.mp h with ⟨m, _, hm⟩
      exact Or.inl (by rw [← hm]; rfl)
    · rcases List.mem_map.mp h with ⟨m, _, hm⟩
      exact Or.inr (by rw [← hm]; rfl)
  exact pushGuarded_preserves _ _ _ _ _
    (pushGuarded_preserves _ _ _ _ _ (pushGuarded_preserves _ _ _ _ _ hbase))

/-- Witness for C9 on a concrete line: the `Cost` candidate at position
19 is 19 characters away from the `New RRP` candidate at position 0
(while the general `R`-number matches within 10 characters of either
were suppressed). -/
theorem analyzePricesInLine_no_near_lower_priority_witness :
    (analyzePricesInLine "New RRP: R1,000.00 Cost: R500.00".data).prices.get? 0 =
      some { value := 1000, type := "New RRP", priority := 100, confidence := mkRat 19 20,
             position := 0, rawMatch := "New RRP: R1,000.00", currency := "ZAR" } ∧
    (analyzePricesInLine "New RRP: R1,000.00 Cost: R500.00".data).prices.get? 1 =
      some { value := 500, type := "Cost", priority := 40, confidence := mkRat 7 10,
             position := 19, rawMatch := "Cost: R500.00", currency := "ZAR" } ∧
    10 ≤ (((0 : ℤ) - (19 : ℤ)).natAbs) :=
  ⟨by decide, by decide,
   analyzePricesInLine_no_near_lower_priority "New RRP: R1,000.00 Cost: R500.00".data 0 1
     { value := 1000, type := "New RRP", priority := 100, confidence := mkRat 19 20,
       position := 0, rawMatch := "New RRP: R1,000.00", currency := "ZAR" }
     { value := 500, type := "Cost", priority := 40, confidence := mkRat 7 10,
       position := 19, rawMatch := "Cost: R500.00", currency := "ZAR" }
     (by omega) (by decide) (by decide) (Or.inr (Or.inl rfl))⟩

end PriceEngine
